import Mathlib

/-!
Verification of the Digital Surf `.sur` reader (`read_sur.py`, class `surface`).

Embedding conventions, justified against the source:

* A byte source is a `List Nat` (each entry a byte value `< 256`).  Python's
  `f.read(n)` at position `p` returns `bytes[p : p+n]`, clamped at EOF exactly
  like `List.take`/`List.drop`.  Since every read in `surface.__init__` has a
  length fixed by earlier fields, each field reads a definite slice of the
  input; the embedding reads those slices at their cumulative offsets, in the
  source's order of evaluation (so the first failing read determines the
  error, as in Python).
* IEEE-754 binary32 decoding (`struct.unpack('<f', ...)`) is exact, so float
  values are modelled by `PyF`: an exact rational, or `inf`/`ninf`/`nan`.
  Arithmetic on the scaled arrays follows numpy float semantics (in
  particular division by zero yields `inf`/`ninf`/`nan`, it does not raise);
  finite-by-finite arithmetic is modelled exactly over `ℚ`, and Python's
  `round(x, 4)` as exact half-even rounding at four decimals.
* Python exceptions raised inside `__init__` (so that no object is produced)
  are the `Except.error` outcomes of `decodeFile`.  `b''.decode('utf8')`
  returns `''`, `int.from_bytes(short, 'little')` accepts any length, and
  `np.fromfile` returns fewer items when the stream runs short; none of those
  raise.  `struct.unpack` on a buffer that is not exactly 4 bytes raises
  `struct.error`; `.decode('utf8')` on a byte `≥ 0x80` raises
  `UnicodeDecodeError`; `.split()[0]` on a whitespace-only field raises
  `IndexError`; `np.reshape` with an incompatible size raises `ValueError`
  (one negative dimension is inferred, numpy's `-1` convention); and when
  `sizeOfPoints` is neither 16 nor 32 the code only prints a warning, leaves
  `self.points` unset, and line 253 (`self.points * ...`) raises
  `AttributeError`.
-/

set_option maxRecDepth 2000000

namespace ReadSur

abbrev Bytes := List Nat

/-- Exceptions that can abort `surface.__init__`, plus (for stating the
specification's claims) the spec's `DecodeError` taxonomy, whose last six
constructors are never produced by the code under verification. -/
inductive DecodeError where
  | unicodeDecodeError
  | structError
  | indexError
  | valueError
  | attributeError
  | badSignature
  | unsupportedSampleWidth
  | invalidCalibration
  | shapeMismatch
  | unexpectedEnd
  | textDecodeError
  deriving Repr, DecidableEq, Inhabited

instance {ε α : Type} [DecidableEq ε] [DecidableEq α] : DecidableEq (Except ε α) := fun x y =>
  match x, y with
  | .ok v, .ok w =>
      if h : v = w then .isTrue (by rw [h])
      else .isFalse (by intro hc; cases hc; exact h rfl)
  | .error v, .error w =>
      if h : v = w then .isTrue (by rw [h])
      else .isFalse (by intro hc; cases hc; exact h rfl)
  | .ok _, .error _ => .isFalse (by intro hc; cases hc)
  | .error _, .ok _ => .isFalse (by intro hc; cases hc)

/-- A Python/numpy double: an exact rational, or an infinity, or NaN. -/
inductive PyF where
  | finite (q : ℚ)
  | inf
  | ninf
  | nan
  deriving Repr, DecidableEq, Inhabited

namespace PyF

/-- numpy elementwise multiplication on doubles (exact on finite values). -/
def mul : PyF → PyF → PyF
  | nan, _ => nan
  | _, nan => nan
  | finite a, finite b => finite (a * b)
  | finite a, inf => if 0 < a then inf else if a < 0 then ninf else nan
  | finite a, ninf => if 0 < a then ninf else if a < 0 then inf else nan
  | inf, finite b => if 0 < b then inf else if b < 0 then ninf else nan
  | ninf, finite b => if 0 < b then ninf else if b < 0 then inf else nan
  | inf, inf => inf
  | inf, ninf => ninf
  | ninf, inf => ninf
  | ninf, ninf => inf

/-- numpy elementwise division on doubles: division by zero yields
`inf`/`ninf`/`nan` (with a RuntimeWarning), it does not raise. -/
def div : PyF → PyF → PyF
  | nan, _ => nan
  | _, nan => nan
  | finite a, finite b =>
      if b = 0 then (if 0 < a then inf else if a < 0 then ninf else nan)
      else finite (a / b)
  | finite _, inf => finite 0
  | finite _, ninf => finite 0
  | inf, finite b => if 0 ≤ b then inf else ninf
  | ninf, finite b => if 0 ≤ b then ninf else inf
  | inf, inf => nan
  | inf, ninf => nan
  | ninf, inf => nan
  | ninf, ninf => nan

end PyF

/-- Half-even integer rounding of a rational (Python's `round`): `f` is the
floor, and `rem2 = 2·(q - f)·den` compares the fractional part with `1/2`. -/
def rhe (q : ℚ) : ℤ :=
  let f := q.num.fdiv q.den
  let rem2 := 2 * (q.num - f * q.den)
  if rem2 < (q.den : ℤ) then f
  else if (q.den : ℤ) < rem2 then f + 1
  else if 2 ∣ f then f else f + 1

/-- Python's `round(x, 4)` applied to a double. -/
def round4 : PyF → PyF
  | .finite q => .finite ((rhe (q * 10000) : ℚ) / 10000)
  | x => x

/-- Little-endian value of a byte string (`int.from_bytes(c, 'little')`,
which accepts any length, yielding `0` on the empty string). -/
def leNat (c : Bytes) : Nat := c.foldr (fun b acc => b + 256 * acc) 0

/-- The slice `s[off : off+n]` of the byte source, i.e. what `f.read(n)`
returns when the cursor is at `off` (clamped at EOF). -/
def sliceAt (s : Bytes) (off n : Nat) : Bytes := (s.drop off).take n

/-- IEEE-754 binary32 value of a 32-bit word (exact). -/
def decodeF32 (w : Nat) : PyF :=
  let sg : Nat := w / 2 ^ 31
  let e : Nat := w / 2 ^ 23 % 2 ^ 8
  let m : Nat := w % 2 ^ 23
  if e = 255 then
    if m = 0 then (if sg = 0 then .inf else .ninf) else .nan
  else
    let num : Nat := if e = 0 then m * 2 else (2 ^ 23 + m) * 2 ^ e
    let mag : ℚ := (num : ℚ) / ((2 ^ 150 : ℕ) : ℚ)
    .finite (if sg = 0 then mag else -mag)

/-- `struct.unpack('<f', c)[0]`: raises `struct.error` unless `c` has
exactly 4 bytes. -/
def unpackF32 (c : Bytes) : Except DecodeError PyF :=
  if c.length = 4 then .ok (decodeF32 (leNat c)) else .error .structError

/-- `struct.unpack('<i', c)[0]`: 4 bytes as a signed little-endian int32. -/
def unpackI32 (c : Bytes) : Except DecodeError Int :=
  if c.length = 4 then
    .ok (let v := leNat c
         if v < 2 ^ 31 then (v : Int) else (v : Int) - 2 ^ 32)
  else .error .structError

/-- Byte-by-byte `f.read(1).decode('utf8')` accumulation: succeeds with the
raw bytes when each is ASCII (`< 0x80`); a byte `≥ 0x80` raises
`UnicodeDecodeError` (a single byte is never a valid UTF-8 continuation). -/
def pyText (c : Bytes) : Except DecodeError Bytes :=
  if c.all (· < 128) then .ok c else .error .unicodeDecodeError

/-- Whether a byte is whitespace for Python's `str.split()` (ASCII range). -/
def isWS (b : Nat) : Bool :=
  b == 9 || b == 10 || b == 11 || b == 12 || b == 13 ||
  b == 28 || b == 29 || b == 30 || b == 31 || b == 32

/-- `text.split()[0]`: the first whitespace-delimited token; raises
`IndexError` when the text contains no token. -/
def firstToken (c : Bytes) : Except DecodeError Bytes :=
  let rest := c.dropWhile isWS
  if rest.isEmpty then .error .indexError
  else .ok (rest.takeWhile (fun b => !isWS b))

/-- Header fields decoded from bytes `[0, 100)` (`read_sur.py` lines
89-124, through `sizeOfPoints`). -/
structure PartA where
  signature : Bytes
  format : Nat
  objNum : Nat
  version : Nat
  objType : Nat
  objectname : Bytes
  operatorname : Bytes
  materialCode : Nat
  acquisitionType : Nat
  rangeType : Nat
  specialPoints : Nat
  absoluteHeights : Nat
  gaugeResolution : PyF
  sizeOfPoints : Nat
  deriving Repr, DecidableEq, Inhabited

/-- Fields at bytes `[12, 100)`, read after the signature `signature`
(offsets are the cumulative sizes of the preceding reads; bytes `[94, 98)`
are skipped). -/
def parseARest (s : Bytes) (signature : Bytes) : Except DecodeError PartA := do
  let format := leNat (sliceAt s 12 2)
  let objNum := leNat (sliceAt s 14 2)
  let version := leNat (sliceAt s 16 2)
  let objType := leNat (sliceAt s 18 2)
  let objectname ← pyText (sliceAt s 20 30)
  let operatorname ← pyText (sliceAt s 50 30)
  let materialCode := leNat (sliceAt s 80 2)
  let acquisitionType := leNat (sliceAt s 82 2)
  let rangeType := leNat (sliceAt s 84 2)
  let specialPoints := leNat (sliceAt s 86 2)
  let absoluteHeights := leNat (sliceAt s 88 2)
  let g ← unpackF32 (sliceAt s 90 4)
  let sizeOfPoints := leNat (sliceAt s 98 2)
  return ⟨signature, format, objNum, version, objType, objectname,
          operatorname, materialCode, acquisitionType, rangeType,
          specialPoints, absoluteHeights, round4 g, sizeOfPoints⟩

/-- Fields at bytes `[0, 100)` (`read_sur.py` lines 89-124): the 12
signature characters, then the rest of the fixed prefix. -/
def parseA (s : Bytes) : Except DecodeError PartA :=
  pyText (sliceAt s 0 12) >>= parseARest s

/-- Header fields decoded from bytes `[108, 512)` (`read_sur.py` lines
129-230; bytes `[294, 306)` and `[324, 334)` are skipped). -/
structure PartB where
  xPoints : Int
  yPoints : Int
  totalPoints : Int
  xSpacing : PyF
  ySpacing : PyF
  zSpacing : PyF
  xName : Bytes
  yName : Bytes
  zName : Bytes
  xStepUnit : Bytes
  yStepUnit : Bytes
  zStepUnit : Bytes
  xLengthUnit : Bytes
  yLengthUnit : Bytes
  zLengthUnit : Bytes
  xUnitRatio : PyF
  yUnitRatio : PyF
  zUnitRatio : PyF
  imprint : Nat
  inverted : Nat
  levelled : Nat
  startSeconds : Nat
  startMintues : Nat
  startHours : Nat
  startDays : Nat
  startMonths : Nat
  startYears : Nat
  startWeekDay : Nat
  MeasurementDuration : PyF
  commentSize : Nat
  privateSize : Nat
  clientZone : Bytes
  xOffset : PyF
  yOffset : PyF
  zOffset : PyF
  tempSpacing : PyF
  tempOffset : PyF
  tempStepUnit : Bytes
  tempAxisName : Bytes
  deriving Repr, DecidableEq, Inhabited

/-- Fields at bytes `[108, 512)`, in the source's read order. -/
def parseB (s : Bytes) : Except DecodeError PartB := do
  let xPoints ← unpackI32 (sliceAt s 108 4)
  let yPoints ← unpackI32 (sliceAt s 112 4)
  let totalPoints ← unpackI32 (sliceAt s 116 4)
  let xSpacing ← unpackF32 (sliceAt s 120 4)
  let ySpacing ← unpackF32 (sliceAt s 124 4)
  let zSpacing ← unpackF32 (sliceAt s 128 4)
  let xName ← pyText (sliceAt s 132 16) >>= firstToken
  let yName ← pyText (sliceAt s 148 16) >>= firstToken
  let zName ← pyText (sliceAt s 164 16) >>= firstToken
  let xStepUnit ← pyText (sliceAt s 180 16) >>= firstToken
  let yStepUnit ← pyText (sliceAt s 196 16) >>= firstToken
  let zStepUnit ← pyText (sliceAt s 212 16) >>= firstToken
  let xLengthUnit ← pyText (sliceAt s 228 16) >>= firstToken
  let yLengthUnit ← pyText (sliceAt s 244 16) >>= firstToken
  let zLengthUnit ← pyText (sliceAt s 260 16) >>= firstToken
  let xur ← unpackF32 (sliceAt s 276 4)
  let yur ← unpackF32 (sliceAt s 280 4)
  let zur ← unpackF32 (sliceAt s 284 4)
  let imprint := leNat (sliceAt s 288 2)
  let inverted := leNat (sliceAt s 290 2)
  let levelled := leNat (sliceAt s 292 2)
  let startSeconds := leNat (sliceAt s 306 2)
  let startMintues := leNat (sliceAt s 308 2)
  let startHours := leNat (sliceAt s 310 2)
  let startDays := leNat (sliceAt s 312 2)
  let startMonths := leNat (sliceAt s 314 2)
  let startYears := leNat (sliceAt s 316 2)
  let startWeekDay := leNat (sliceAt s 318 2)
  let md ← unpackF32 (sliceAt s 320 4)
  let commentSize := leNat (sliceAt s 334 2)
  let privateSize := leNat (sliceAt s 336 2)
  let clientZone ← pyText (sliceAt s 338 128)
  let xo ← unpackF32 (sliceAt s 466 4)
  let yo ← unpackF32 (sliceAt s 470 4)
  let zo ← unpackF32 (sliceAt s 474 4)
  let ts ← unpackF32 (sliceAt s 478 4)
  let tof ← unpackF32 (sliceAt s 482 4)
  let tempStepUnit ← pyText (sliceAt s 486 13)
  let tempAxisName ← pyText (sliceAt s 499 13)
  return ⟨xPoints, yPoints, totalPoints, xSpacing, ySpacing, zSpacing,
          xName, yName, zName, xStepUnit, yStepUnit, zStepUnit,
          xLengthUnit, yLengthUnit, zLengthUnit,
          round4 xur, round4 yur, round4 zur,
          imprint, inverted, levelled,
          startSeconds, startMintues, startHours, startDays, startMonths,
          startYears, startWeekDay, round4 md, commentSize, privateSize,
          clientZone, round4 xo, round4 yo, round4 zo, round4 ts,
          round4 tof, tempStepUnit, tempAxisName⟩

/-- The variable trailer (lines 232-239): `commentSize` characters of
comment, then — only when `privateSize != 0` — `privateSize` characters of
private data; when `privateSize = 0` the `private` attribute is never
assigned (modelled as `none`). -/
def parseTrailer (s : Bytes) (cs ps : Nat) :
    Except DecodeError (Bytes × Option Bytes) := do
  let comment ← pyText (sliceAt s 512 cs)
  if ps ≠ 0 then
    let p ← pyText (sliceAt s (512 + cs) ps)
    return (comment, some p)
  else
    return (comment, none)

/-- Signed little-endian integer of an `itemsize`-byte chunk. -/
def sint (itemsize : Nat) (c : Bytes) : Int :=
  let v := leNat c
  if v < 2 ^ (8 * itemsize - 1) then (v : Int) else (v : Int) - 2 ^ (8 * itemsize)

/-- `np.fromfile(f, dtype, count)` on the remaining bytes `d`: reads at most
`count` complete items (all remaining complete items when `count` is
negative); a short stream yields fewer items, it does not raise. -/
def npFromfile (itemsize : Nat) (count : Int) (d : Bytes) : List Int :=
  let avail := d.length / itemsize
  let n := if count < 0 then avail else min count.toNat avail
  (List.range n).map (fun i => sint itemsize (sliceAt d (i * itemsize) itemsize))

/-- Lines 242-250: width code 16 reads `np.int16` items, 32 reads `np.int32`
items; any other code only prints a warning and leaves `self.points` unset,
so line 253 (`self.points * self.zSpacing / self.zUnitRatio`) raises
`AttributeError`. -/
def readRawPoints (sop : Nat) (count : Int) (d : Bytes) :
    Except DecodeError (List Int) :=
  if sop = 16 then .ok (npFromfile 2 count d)
  else if sop = 32 then .ok (npFromfile 4 count d)
  else .error .attributeError

/-- Line 253: `self.points * self.zSpacing / self.zUnitRatio`, elementwise
numpy float arithmetic in the source's order. -/
def calibrate (raw : List Int) (zSpacing zUnitRatio : PyF) : List PyF :=
  raw.map (fun (r : Int) => PyF.div (PyF.mul (.finite (r : ℚ)) zSpacing) zUnitRatio)

/-- The row-major grid with `r` rows of `c` entries taken from `l`. -/
def mkGrid (r c : Nat) (l : List PyF) : List (List PyF) :=
  (List.range r).map (fun j => (List.range c).map (fun i => l.getD (j * c + i) .nan))

/-- `np.reshape(l, (rows, cols))`: a single negative dimension is inferred
from the array size when it divides it (numpy's `-1` convention, applied by
numpy to any negative value); otherwise the product of the dimensions must
equal the size, else `ValueError`. -/
def npReshape (rows cols : Int) (l : List PyF) :
    Except DecodeError (List (List PyF)) :=
  if rows < 0 ∧ cols < 0 then .error .valueError
  else if rows < 0 then
    if 0 < cols ∧ cols.toNat ∣ l.length then
      .ok (mkGrid (l.length / cols.toNat) cols.toNat l)
    else .error .valueError
  else if cols < 0 then
    if 0 < rows ∧ rows.toNat ∣ l.length then
      .ok (mkGrid rows.toNat (l.length / rows.toNat) l)
    else .error .valueError
  else
    if rows.toNat * cols.toNat = l.length then .ok (mkGrid rows.toNat cols.toNat l)
    else .error .valueError

/-- Lines 258-261: `np.array(list(range(n))) * spacing / ratio` (for a
negative `n`, `range(n)` is empty). -/
def mkAxis (n : Int) (spacing ratio : PyF) : List PyF :=
  (List.range n.toNat).map (fun (k : Nat) => PyF.div (PyF.mul (.finite (k : ℚ)) spacing) ratio)

/-- The decoded `surface` object: every attribute set by `__init__`. -/
structure Surface where
  signature : Bytes
  format : Nat
  objNum : Nat
  version : Nat
  objType : Nat
  objectname : Bytes
  operatorname : Bytes
  materialCode : Nat
  acquisitionType : Nat
  rangeType : Nat
  specialPoints : Nat
  absoluteHeights : Nat
  gaugeResolution : PyF
  sizeOfPoints : Nat
  zMin : Int
  zMax : Int
  xPoints : Int
  yPoints : Int
  totalPoints : Int
  xSpacing : PyF
  ySpacing : PyF
  zSpacing : PyF
  xName : Bytes
  yName : Bytes
  zName : Bytes
  xStepUnit : Bytes
  yStepUnit : Bytes
  zStepUnit : Bytes
  xLengthUnit : Bytes
  yLengthUnit : Bytes
  zLengthUnit : Bytes
  xUnitRatio : PyF
  yUnitRatio : PyF
  zUnitRatio : PyF
  imprint : Nat
  inverted : Nat
  levelled : Nat
  startSeconds : Nat
  startMintues : Nat
  startHours : Nat
  startDays : Nat
  startMonths : Nat
  startYears : Nat
  startWeekDay : Nat
  MeasurementDuration : PyF
  commentSize : Nat
  privateSize : Nat
  clientZone : Bytes
  xOffset : PyF
  yOffset : PyF
  zOffset : PyF
  tempSpacing : PyF
  tempOffset : PyF
  tempStepUnit : Bytes
  tempAxisName : Bytes
  comment : Bytes
  privateBlob : Option Bytes
  points : List PyF
  pointsAligned : List (List PyF)
  xAxis : List PyF
  yAxis : List PyF
  deriving Repr, DecidableEq, Inhabited

/-- Assembly of the final object from the decoded pieces. -/
def assemble (a : PartA) (zMin zMax : Int) (b : PartB)
    (t : Bytes × Option Bytes) (raw : List Int)
    (grid : List (List PyF)) : Surface :=
  { signature := a.signature, format := a.format, objNum := a.objNum,
    version := a.version, objType := a.objType, objectname := a.objectname,
    operatorname := a.operatorname, materialCode := a.materialCode,
    acquisitionType := a.acquisitionType, rangeType := a.rangeType,
    specialPoints := a.specialPoints, absoluteHeights := a.absoluteHeights,
    gaugeResolution := a.gaugeResolution, sizeOfPoints := a.sizeOfPoints,
    zMin := zMin, zMax := zMax,
    xPoints := b.xPoints, yPoints := b.yPoints, totalPoints := b.totalPoints,
    xSpacing := b.xSpacing, ySpacing := b.ySpacing, zSpacing := b.zSpacing,
    xName := b.xName, yName := b.yName, zName := b.zName,
    xStepUnit := b.xStepUnit, yStepUnit := b.yStepUnit,
    zStepUnit := b.zStepUnit, xLengthUnit := b.xLengthUnit,
    yLengthUnit := b.yLengthUnit, zLengthUnit := b.zLengthUnit,
    xUnitRatio := b.xUnitRatio, yUnitRatio := b.yUnitRatio,
    zUnitRatio := b.zUnitRatio, imprint := b.imprint,
    inverted := b.inverted, levelled := b.levelled,
    startSeconds := b.startSeconds, startMintues := b.startMintues,
    startHours := b.startHours, startDays := b.startDays,
    startMonths := b.startMonths, startYears := b.startYears,
    startWeekDay := b.startWeekDay,
    MeasurementDuration := b.MeasurementDuration,
    commentSize := b.commentSize, privateSize := b.privateSize,
    clientZone := b.clientZone, xOffset := b.xOffset, yOffset := b.yOffset,
    zOffset := b.zOffset, tempSpacing := b.tempSpacing,
    tempOffset := b.tempOffset, tempStepUnit := b.tempStepUnit,
    tempAxisName := b.tempAxisName,
    comment := t.1, privateBlob := t.2,
    points := calibrate raw b.zSpacing b.zUnitRatio,
    pointsAligned := grid,
    xAxis := mkAxis b.xPoints b.xSpacing b.xUnitRatio,
    yAxis := mkAxis b.yPoints b.ySpacing b.yUnitRatio }

/-- Everything `surface.__init__` does after the `zMax` read: the `[108,
512)` header fields, the trailer, the sample vector (which starts right
after the trailer, at byte `512 + commentSize + privateSize`), the scaling,
the reshape, and the axes. -/
def decodeTail (a : PartA) (zMin zMax : Int) (s : Bytes) :
    Except DecodeError Surface := do
  let b ← parseB s
  let t ← parseTrailer s b.commentSize b.privateSize
  let raw ← readRawPoints a.sizeOfPoints b.totalPoints
              (s.drop (512 + b.commentSize + b.privateSize))
  let grid ← npReshape b.yPoints b.xPoints (calibrate raw b.zSpacing b.zUnitRatio)
  return assemble a zMin zMax b t raw grid

/-- The whole of `surface.__init__`: one decode pass over one byte source,
in the source's read order (`zMin`/`zMax` occupy bytes `[100, 108)`). -/
def decodeFile (s : Bytes) : Except DecodeError Surface := do
  let a ← parseA s
  let zMin ← unpackI32 (sliceAt s 100 4)
  let zMax ← unpackI32 (sliceAt s 104 4)
  decodeTail a zMin zMax s

/-- Value of a successful decode (an arbitrary default on error). -/
def getOkD {α : Type} [Inhabited α] (e : Except DecodeError α) : α :=
  match e with
  | .ok v => v
  | .error _ => default

/-- The decoded object of a byte source (default object on failure). -/
def decSur (s : Bytes) : Surface := getOkD (decodeFile s)

/-! Concrete byte sources used as test vectors.  `b2`/`i4` render 2-byte
unsigned and 4-byte signed little-endian fields, `f32lit` renders the given
IEEE bit pattern; `1.0f` is `0x3F800000` and `2.0f` is `0x40000000`. -/

/-- Two little-endian bytes of an unsigned 16-bit value. -/
def b2 (n : Nat) : Bytes := [n % 256, n / 256 % 256]

/-- Four little-endian bytes of a signed 32-bit value. -/
def i4 (z : Int) : Bytes :=
  let v := (z % 2 ^ 32).toNat
  [v % 256, v / 256 % 256, v / 65536 % 256, v / 16777216 % 256]

/-- Four little-endian bytes of the 32-bit word `w`. -/
def f32lit (w : Nat) : Bytes :=
  [w % 256, w / 256 % 256, w / 65536 % 256, w / 16777216 % 256]

/-- The binary32 pattern of `1.0`. -/
def fOne : Bytes := f32lit 0x3F800000

/-- The binary32 pattern of `2.0`. -/
def fTwo : Bytes := f32lit 0x40000000

/-- The binary32 pattern of `0.0`. -/
def fZero : Bytes := f32lit 0

/-- `n` space characters. -/
def spc (n : Nat) : Bytes := List.replicate n 32

/-- `n` zero bytes. -/
def zb (n : Nat) : Bytes := List.replicate n 0

/-- A 16-byte axis-name field holding the token `X` padded with spaces. -/
def nameX : Bytes := 88 :: spc 15

/-- Bytes `[0, 100)` of a synthetic header: the given 12 signature bytes,
zero codes, space-padded names, gauge resolution `0.0`, and the given
sample-width code. -/
def hdrPre (sig : Bytes) (sop : Nat) : Bytes :=
  sig ++ zb 8 ++ spc 60 ++ zb 10 ++ fZero ++ zb 4 ++ b2 sop

/-- Bytes `[100, 132)`: `zMin = zMax = 0`, the given grid dimensions and
total count, and spacings `1.0`. -/
def hdrMid (xP yP tP : Int) : Bytes :=
  i4 0 ++ i4 0 ++ i4 xP ++ i4 yP ++ i4 tP ++ fOne ++ fOne ++ fOne

/-- Bytes `[132, 276)`: nine axis-name/unit fields, each the token `X`. -/
def hdrNames : Bytes := List.flatten (List.replicate 9 nameX)

/-- Bytes `[276, 512)`: unit ratios `1.0`, `1.0` and the given z ratio,
zero flags/timestamps, the given comment/private sizes, and space-padded
client/temperature fields. -/
def hdrEnd (zRat : Bytes) (cs ps : Nat) : Bytes :=
  fOne ++ fOne ++ zRat ++ zb 6 ++ zb 12 ++ zb 14 ++ fZero ++ zb 10 ++
  b2 cs ++ b2 ps ++ spc 128 ++ fZero ++ fZero ++ fZero ++ fZero ++ fZero ++
  spc 13 ++ spc 13

/-- A complete synthetic file: 512-byte header followed by the trailer and
sample bytes. -/
def mkFile (sig : Bytes) (sop : Nat) (xP yP tP : Int) (zRat : Bytes)
    (cs ps : Nat) (trail : Bytes) : Bytes :=
  hdrPre sig sop ++ hdrMid xP yP tP ++ hdrNames ++ hdrEnd zRat cs ps ++ trail

/-- Twelve `A` bytes: a signature that is not the format's magic. -/
def sigA : Bytes := List.replicate 12 65

/-- Twelve `B` bytes: another signature that is not the format's magic. -/
def sigB : Bytes := List.replicate 12 66

/-- Eight sample bytes: the int16 samples `[10, 20, 30, 40]`. -/
def data4 : Bytes := [10, 0, 20, 0, 30, 0, 40, 0]

/-- A fully well-formed file (the spec's concrete scenario: 2×2 grid,
width 16, `zSpacing = 1.0`, `zUnitRatio = 2.0`, samples `[10,20,30,40]`),
with signature `AAAAAAAAAAAA`. -/
def goodA : Bytes := mkFile sigA 16 2 2 4 fTwo 0 0 data4

/-- The same file with signature `BBBBBBBBBBBB`. -/
def goodB : Bytes := mkFile sigB 16 2 2 4 fTwo 0 0 data4

/-- The same file with sample-width code 8. -/
def width8 : Bytes := mkFile sigA 8 2 2 4 fTwo 0 0 data4

/-- The same file with `zUnitRatio = 0.0`. -/
def zeroRat : Bytes := mkFile sigA 16 2 2 4 fZero 0 0 data4

/-- `totalPoints = 5` declared, but only four int16 samples present. -/
def shortData : Bytes := mkFile sigA 16 2 2 5 fTwo 0 0 data4

/-- `totalPoints = 5 ≠ 3·2` with all five declared samples present. -/
def badShape : Bytes := mkFile sigA 16 3 2 5 fTwo 0 0 [10, 0, 20, 0, 30, 0, 40, 0, 50, 0]

/-- `totalPoints = 5 ≠ 3·2` with width code 32 and all five int32 samples
present. -/
def badShape32 : Bytes :=
  mkFile sigA 32 3 2 5 fTwo 0 0 (i4 10 ++ i4 20 ++ i4 30 ++ i4 40 ++ i4 50)

/-- `yPoints = -1`: numpy infers the row count when reshaping. -/
def yNeg : Bytes := mkFile sigA 16 2 (-1) 4 fTwo 0 0 data4

/-- `xPoints = -1`: numpy infers the column count when reshaping. -/
def xNeg : Bytes := mkFile sigA 16 (-1) 2 4 fTwo 0 0 data4

/-- A file cut to its first 486 bytes: shorter than the 512-byte fixed
header (it ends after `tempOffset`, before the temperature text fields). -/
def trunc486 : Bytes := (mkFile sigA 16 0 0 0 fTwo 0 0 []).take 486

/-- `commentSize = 5` declared, but the file ends after two comment bytes. -/
def shortCmt : Bytes := mkFile sigA 16 0 0 0 fTwo 5 0 [67, 67]

/-- `commentSize = 2`, `privateSize = 3`, both blocks fully present. -/
def privOk : Bytes := mkFile sigA 16 0 0 0 fTwo 2 3 [67, 67, 80, 80, 80]

/-- `goodA` with the nine-name block's first field all spaces. -/
def wsName : Bytes :=
  hdrPre sigA 16 ++ hdrMid 2 2 4 ++ (spc 16 ++ List.flatten (List.replicate 8 nameX)) ++
  hdrEnd fTwo 0 0 ++ data4

/-- Bytes `[108, 520)` of `goodA`: everything after the z-range field. -/
def postZ : Bytes := i4 2 ++ i4 2 ++ i4 4 ++ fOne ++ fOne ++ fOne ++ hdrNames ++
  hdrEnd fTwo 0 0 ++ data4

/-! Reduction lemmas for the `Except` monad and the byte slices. -/

theorem okBind {α β : Type} (a : α) (f : α → Except DecodeError β) :
    (Except.ok a >>= f) = f a := rfl

theorem errBind {α β : Type} (e : DecodeError) (f : α → Except DecodeError β) :
    ((Except.error e : Except DecodeError α) >>= f) = .error e := rfl

theorem sliceAt_take {s : Bytes} {off n m : Nat} (h : off + n ≤ m) :
    sliceAt (s.take m) off n = sliceAt s off n := by
  unfold sliceAt
  rw [List.drop_take, List.take_take, min_eq_left (by omega)]

theorem sliceAt_drop {s : Bytes} {k off n : Nat} (h : k ≤ off) :
    sliceAt (s.drop k) (off - k) n = sliceAt s off n := by
  unfold sliceAt
  rw [List.drop_drop, Nat.add_sub_cancel' h]

theorem drop_congr_of_drop_eq {s₁ s₂ : Bytes} {k : Nat} (h : s₁.drop k = s₂.drop k)
    {m : Nat} (hm : k ≤ m) : s₁.drop m = s₂.drop m := by
  rw [show m = k + (m - k) by omega, ← List.drop_drop, h, List.drop_drop]

theorem sliceAt_congr_of_drop_eq {s₁ s₂ : Bytes} {k : Nat}
    (h : s₁.drop k = s₂.drop k) {off n : Nat} (hm : k ≤ off) :
    sliceAt s₁ off n = sliceAt s₂ off n := by
  unfold sliceAt
  rw [drop_congr_of_drop_eq h hm]

theorem sliceAt_congr_of_take_eq {s₁ s₂ : Bytes} {m : Nat}
    (h : s₁.take m = s₂.take m) {off n : Nat} (hm : off + n ≤ m) :
    sliceAt s₁ off n = sliceAt s₂ off n := by
  rw [← sliceAt_take (s := s₁) hm, h, sliceAt_take (s := s₂) hm]

/-! Congruence: each parsing stage depends only on the bytes it reads. -/

theorem parseARest_congr {s₁ s₂ : Bytes} (h : s₁.take 100 = s₂.take 100)
    (c : Bytes) : parseARest s₁ c = parseARest s₂ c := by
  have e : ∀ off n : Nat, off + n ≤ 100 → sliceAt s₁ off n = sliceAt s₂ off n :=
    fun off n hm => sliceAt_congr_of_take_eq h hm
  unfold parseARest
  rw [e 12 2 (by omega), e 14 2 (by omega), e 16 2 (by omega), e 18 2 (by omega),
      e 20 30 (by omega), e 50 30 (by omega), e 80 2 (by omega), e 82 2 (by omega),
      e 84 2 (by omega), e 86 2 (by omega), e 88 2 (by omega), e 90 4 (by omega),
      e 98 2 (by omega)]

theorem parseB_congr {s₁ s₂ : Bytes} (h : s₁.drop 108 = s₂.drop 108) :
    parseB s₁ = parseB s₂ := by
  have e : ∀ off n : Nat, 108 ≤ off → sliceAt s₁ off n = sliceAt s₂ off n :=
    fun off n hm => sliceAt_congr_of_drop_eq h hm
  unfold parseB
  rw [e 108 4 (by omega), e 112 4 (by omega), e 116 4 (by omega), e 120 4 (by omega),
      e 124 4 (by omega), e 128 4 (by omega), e 132 16 (by omega), e 148 16 (by omega),
      e 164 16 (by omega), e 180 16 (by omega), e 196 16 (by omega), e 212 16 (by omega),
      e 228 16 (by omega), e 244 16 (by omega), e 260 16 (by omega), e 276 4 (by omega),
      e 280 4 (by omega), e 284 4 (by omega), e 288 2 (by omega), e 290 2 (by omega),
      e 292 2 (by omega), e 306 2 (by omega), e 308 2 (by omega), e 310 2 (by omega),
      e 312 2 (by omega), e 314 2 (by omega), e 316 2 (by omega), e 318 2 (by omega),
      e 320 4 (by omega), e 334 2 (by omega), e 336 2 (by omega), e 338 128 (by omega),
      e 466 4 (by omega), e 470 4 (by omega), e 474 4 (by omega), e 478 4 (by omega),
      e 482 4 (by omega), e 486 13 (by omega), e 499 13 (by omega)]

theorem parseTrailer_congr {s₁ s₂ : Bytes} (h : s₁.drop 108 = s₂.drop 108)
    (cs ps : Nat) : parseTrailer s₁ cs ps = parseTrailer s₂ cs ps := by
  unfold parseTrailer
  rw [sliceAt_congr_of_drop_eq h (by omega : (108:Nat) ≤ 512),
      sliceAt_congr_of_drop_eq h (by omega : (108:Nat) ≤ 512 + cs)]

theorem decodeTail_congr {s₁ s₂ : Bytes} (h : s₁.drop 108 = s₂.drop 108)
    (a : PartA) (zMin zMax : Int) :
    decodeTail a zMin zMax s₁ = decodeTail a zMin zMax s₂ := by
  have ht : ∀ cs ps : Nat, parseTrailer s₁ cs ps = parseTrailer s₂ cs ps :=
    parseTrailer_congr h
  have hd : ∀ cs ps : Nat,
      s₁.drop (512 + cs + ps) = s₂.drop (512 + cs + ps) :=
    fun cs ps => drop_congr_of_drop_eq h (by omega)
  unfold decodeTail
  rw [parseB_congr h]
  simp only [ht, hd]

/-! Elementwise descriptions of the derived arrays. -/

theorem getD_map_range {α : Type} (f : Nat → α) {j n : Nat} (h : j < n) (d : α) :
    ((List.range n).map f).getD j d = f j := by
  rw [List.getD_eq_getElem?_getD, List.getElem?_map, List.getElem?_range h]
  rfl

theorem mkGrid_length (r c : Nat) (l : List PyF) : (mkGrid r c l).length = r := by
  simp [mkGrid]

theorem mkGrid_row_length {r c : Nat} {l : List PyF} {row : List PyF}
    (h : row ∈ mkGrid r c l) : row.length = c := by
  unfold mkGrid at h
  obtain ⟨j, _, rfl⟩ := List.mem_map.mp h
  simp

theorem mkGrid_getD {r c : Nat} (l : List PyF) {j i : Nat} (hj : j < r) (hi : i < c) :
    ((mkGrid r c l).getD j []).getD i .nan = l.getD (j * c + i) .nan := by
  unfold mkGrid
  rw [getD_map_range _ hj, getD_map_range _ hi]

theorem mkAxis_length (n : Int) (sp ra : PyF) : (mkAxis n sp ra).length = n.toNat := by
  simp [mkAxis]

theorem mkAxis_getD (n : Int) (sp ra : PyF) {k : Nat} (hk : k < n.toNat) :
    (mkAxis n sp ra).getD k .nan = PyF.div (PyF.mul (.finite (k : ℚ)) sp) ra := by
  unfold mkAxis
  rw [getD_map_range _ hk]

theorem calibrate_length (raw : List Int) (zs zu : PyF) :
    (calibrate raw zs zu).length = raw.length := by
  simp [calibrate]

theorem calibrate_getD (raw : List Int) (zs zu : PyF) {j : Nat}
    (hj : j < raw.length) :
    (calibrate raw zs zu).getD j .nan =
      PyF.div (PyF.mul (.finite ((raw.getD j 0 : Int) : ℚ)) zs) zu := by
  unfold calibrate
  rw [List.getD_eq_getElem?_getD, List.getElem?_map,
      List.getElem?_eq_getElem hj, List.getD_eq_getElem?_getD,
      List.getElem?_eq_getElem hj]
  rfl

theorem npFromfile_length_of_enough {itemsize : Nat} {count : Int} {d : Bytes}
    (h0 : 0 ≤ count) (hi : 0 < itemsize)
    (h : count.toNat * itemsize ≤ d.length) :
    (npFromfile itemsize count d).length = count.toNat := by
  unfold npFromfile
  have : ¬ count < 0 := by omega
  simp only [this, if_false, List.length_map, List.length_range]
  have : count.toNat ≤ d.length / itemsize := by
    rw [Nat.le_div_iff_mul_le hi]; exact h
  omega

/-- Successful non-negative reshape: dimensions taken literally. -/
theorem npReshape_ok_nonneg {rows cols : Int} {l : List PyF}
    {g : List (List PyF)} (hr : 0 ≤ rows) (hc : 0 ≤ cols)
    (h : npReshape rows cols l = .ok g) :
    rows.toNat * cols.toNat = l.length ∧ g = mkGrid rows.toNat cols.toNat l := by
  unfold npReshape at h
  rw [if_neg (by omega), if_neg (by omega), if_neg (by omega)] at h
  by_cases hsz : rows.toNat * cols.toNat = l.length
  · rw [if_pos hsz] at h
    exact ⟨hsz, (Except.ok.injEq _ _).mp h.symm⟩
  · rw [if_neg hsz] at h
    exact absurd h (by simp)

/-- Reshape refuses when the dimensions are non-negative and their product
differs from the array size. -/
theorem npReshape_mismatch {rows cols : Int} {l : List PyF}
    (hr : 0 ≤ rows) (hc : 0 ≤ cols)
    (hsz : rows.toNat * cols.toNat ≠ l.length) :
    npReshape rows cols l = .error .valueError := by
  unfold npReshape
  rw [if_neg (by omega), if_neg (by omega), if_neg (by omega), if_neg hsz]

/-! Whitespace-only text fields. -/

theorem isWS_lt_128 {b : Nat} (h : isWS b = true) : b < 128 := by
  unfold isWS at h
  simp only [Bool.or_eq_true, beq_iff_eq] at h
  omega

theorem tok_ws_fail {c : Bytes} (h : c.all isWS = true) :
    (pyText c >>= firstToken) = .error .indexError := by
  have h128 : c.all (· < 128) = true := by
    rw [List.all_eq_true] at h ⊢
    intro x hx
    simpa using isWS_lt_128 (h x hx)
  have hdw : c.dropWhile isWS = [] :=
    List.dropWhile_eq_nil_iff.mpr (fun x hx => List.all_eq_true.mp h x hx)
  unfold pyText firstToken
  rw [if_pos h128, okBind, hdw]
  rfl

/-! Structural lemmas: how the pipeline's value depends on its inputs. -/

theorem parseARest_sig (s : Bytes) (c : Bytes) :
    parseARest s c =
      Except.map (fun a => { a with signature := c }) (parseARest s []) := by
  unfold parseARest
  cases h1 : pyText (sliceAt s 20 30) with
  | error e => simp [h1, errBind, Except.map]
  | ok o1 =>
    cases h2 : pyText (sliceAt s 50 30) with
    | error e => simp [h1, h2, errBind, okBind, Except.map]
    | ok o2 =>
      cases h3 : unpackF32 (sliceAt s 90 4) with
      | error e => simp [h1, h2, h3, errBind, okBind, Except.map]
      | ok g => simp [h1, h2, h3, okBind, Except.map]

theorem decodeTail_zm (a : PartA) (zm zM zm' zM' : Int) (s : Bytes) :
    ((decodeTail a zm zM s).isOk = (decodeTail a zm' zM' s).isOk) ∧
    ∀ r r', decodeTail a zm zM s = .ok r → decodeTail a zm' zM' s = .ok r' →
      r.pointsAligned = r'.pointsAligned ∧ r.xAxis = r'.xAxis ∧
      r.yAxis = r'.yAxis := by
  unfold decodeTail
  cases hb : parseB s with
  | error e => simp [errBind]
  | ok b =>
    rw [okBind, okBind]
    cases ht : parseTrailer s b.commentSize b.privateSize with
    | error e => simp [errBind]
    | ok t =>
      rw [okBind, okBind]
      cases hw : readRawPoints a.sizeOfPoints b.totalPoints
          (s.drop (512 + b.commentSize + b.privateSize)) with
      | error e => simp [errBind]
      | ok raw =>
        rw [okBind, okBind]
        cases hg : npReshape b.yPoints b.xPoints
            (calibrate raw b.zSpacing b.zUnitRatio) with
        | error e => simp [errBind]
        | ok grid =>
          rw [okBind, okBind]
          refine ⟨rfl, ?_⟩
          intro r r' hr hr'
          cases hr
          cases hr'
          exact ⟨rfl, rfl, rfl⟩

theorem decodeTail_sig (a : PartA) (c : Bytes) (zm zM : Int) (s : Bytes) :
    decodeTail { a with signature := c } zm zM s =
      Except.map (fun r => { r with signature := c }) (decodeTail a zm zM s) := by
  unfold decodeTail
  cases hb : parseB s with
  | error e => simp [errBind, Except.map]
  | ok b =>
    rw [okBind, okBind]
    cases ht : parseTrailer s b.commentSize b.privateSize with
    | error e => simp [errBind, Except.map]
    | ok t =>
      rw [okBind, okBind]
      cases hw : readRawPoints a.sizeOfPoints b.totalPoints
          (s.drop (512 + b.commentSize + b.privateSize)) with
      | error e => simp [errBind, Except.map]
      | ok raw =>
        rw [okBind, okBind]
        cases hg : npReshape b.yPoints b.xPoints
            (calibrate raw b.zSpacing b.zUnitRatio) with
        | error e => simp [errBind, Except.map]
        | ok grid =>
          rw [okBind, okBind]
          simp only [Except.map]
          rfl

theorem decodeFile_ok {s : Bytes} {r : Surface} (h : decodeFile s = .ok r) :
    ∃ a zm zM b t raw grid,
      parseA s = .ok a ∧
      unpackI32 (sliceAt s 100 4) = .ok zm ∧
      unpackI32 (sliceAt s 104 4) = .ok zM ∧
      parseB s = .ok b ∧
      parseTrailer s b.commentSize b.privateSize = .ok t ∧
      readRawPoints a.sizeOfPoints b.totalPoints
        (s.drop (512 + b.commentSize + b.privateSize)) = .ok raw ∧
      npReshape b.yPoints b.xPoints (calibrate raw b.zSpacing b.zUnitRatio) = .ok grid ∧
      r = assemble a zm zM b t raw grid := by
  unfold decodeFile at h
  cases hA : parseA s with
  | error e => rw [hA, errBind] at h; exact Except.noConfusion h
  | ok a =>
    rw [hA, okBind] at h
    cases hz : unpackI32 (sliceAt s 100 4) with
    | error e => rw [hz, errBind] at h; exact Except.noConfusion h
    | ok zm =>
      rw [hz, okBind] at h
      cases hZ : unpackI32 (sliceAt s 104 4) with
      | error e => rw [hZ, errBind] at h; exact Except.noConfusion h
      | ok zM =>
        rw [hZ, okBind] at h
        unfold decodeTail at h
        cases hb : parseB s with
        | error e => rw [hb, errBind] at h; exact Except.noConfusion h
        | ok b =>
          rw [hb, okBind] at h
          cases ht : parseTrailer s b.commentSize b.privateSize with
          | error e => rw [ht, errBind] at h; exact Except.noConfusion h
          | ok t =>
            rw [ht, okBind] at h
            cases hw : readRawPoints a.sizeOfPoints b.totalPoints
                (s.drop (512 + b.commentSize + b.privateSize)) with
            | error e => rw [hw, errBind] at h; exact Except.noConfusion h
            | ok raw =>
              rw [hw, okBind] at h
              cases hg : npReshape b.yPoints b.xPoints
                  (calibrate raw b.zSpacing b.zUnitRatio) with
              | error e => rw [hg, errBind] at h; exact Except.noConfusion h
              | ok grid =>
                rw [hg, okBind] at h
                cases h
                exact ⟨a, zm, zM, b, t, raw, grid, rfl, rfl, rfl, rfl, ht, hw, hg, rfl⟩

theorem parseB_ws_fail {s : Bytes} {k : Nat} (hk : k < 9)
    (hws : (sliceAt s (132 + 16 * k) 16).all isWS = true) (b : PartB) :
    parseB s ≠ .ok b := by
  intro hok
  unfold parseB at hok
  cases h1 : unpackI32 (sliceAt s 108 4) with
  | error e => rw [h1, errBind] at hok; exact Except.noConfusion hok
  | ok v1 =>
  simp only [h1, okBind] at hok
  cases h2 : unpackI32 (sliceAt s 112 4) with
  | error e => rw [h2, errBind] at hok; exact Except.noConfusion hok
  | ok v2 =>
  simp only [h2, okBind] at hok
  cases h3 : unpackI32 (sliceAt s 116 4) with
  | error e => rw [h3, errBind] at hok; exact Except.noConfusion hok
  | ok v3 =>
  simp only [h3, okBind] at hok
  cases h4 : unpackF32 (sliceAt s 120 4) with
  | error e => rw [h4, errBind] at hok; exact Except.noConfusion hok
  | ok v4 =>
  simp only [h4, okBind] at hok
  cases h5 : unpackF32 (sliceAt s 124 4) with
  | error e => rw [h5, errBind] at hok; exact Except.noConfusion hok
  | ok v5 =>
  simp only [h5, okBind] at hok
  cases h6 : unpackF32 (sliceAt s 128 4) with
  | error e => rw [h6, errBind] at hok; exact Except.noConfusion hok
  | ok v6 =>
  simp only [h6, okBind] at hok
  interval_cases k
  · -- name field 0 is all whitespace
    rw [tok_ws_fail hws, errBind] at hok
    exact Except.noConfusion hok
  · -- name field 1 is all whitespace
    cases n1 : pyText (sliceAt s 132 16) >>= firstToken with
    | error e => rw [n1, errBind] at hok; exact Except.noConfusion hok
    | ok w1 =>
    simp only [n1, okBind] at hok
    rw [tok_ws_fail hws, errBind] at hok
    exact Except.noConfusion hok
  · -- name field 2 is all whitespace
    cases n1 : pyText (sliceAt s 132 16) >>= firstToken with
    | error e => rw [n1, errBind] at hok; exact Except.noConfusion hok
    | ok w1 =>
    simp only [n1, okBind] at hok
    cases n2 : pyText (sliceAt s 148 16) >>= firstToken with
    | error e => rw [n2, errBind] at hok; exact Except.noConfusion hok
    | ok w2 =>
    simp only [n2, okBind] at hok
    rw [tok_ws_fail hws, errBind] at hok
    exact Except.noConfusion hok
  · -- name field 3 is all whitespace
    cases n1 : pyText (sliceAt s 132 16) >>= firstToken with
    | error e => rw [n1, errBind] at hok; exact Except.noConfusion hok
    | ok w1 =>
    simp only [n1, okBind] at hok
    cases n2 : pyText (sliceAt s 148 16) >>= firstToken with
    | error e => rw [n2, errBind] at hok; exact Except.noConfusion hok
    | ok w2 =>
    simp only [n2, okBind] at hok
    cases n3 : pyText (sliceAt s 164 16) >>= firstToken with
    | error e => rw [n3, errBind] at hok; exact Except.noConfusion hok
    | ok w3 =>
    simp only [n3, okBind] at hok
    rw [tok_ws_fail hws, errBind] at hok
    exact Except.noConfusion hok
  · -- name field 4 is all whitespace
    cases n1 : pyText (sliceAt s 132 16) >>= firstToken with
    | error e => rw [n1, errBind] at hok; exact Except.noConfusion hok
    | ok w1 =>
    simp only [n1, okBind] at hok
    cases n2 : pyText (sliceAt s 148 16) >>= firstToken with
    | error e => rw [n2, errBind] at hok; exact Except.noConfusion hok
    | ok w2 =>
    simp only [n2, okBind] at hok
    cases n3 : pyText (sliceAt s 164 16) >>= firstToken with
    | error e => rw [n3, errBind] at hok; exact Except.noConfusion hok
    | ok w3 =>
    simp only [n3, okBind] at hok
    cases n4 : pyText (sliceAt s 180 16) >>= firstToken with
    | error e => rw [n4, errBind] at hok; exact Except.noConfusion hok
    | ok w4 =>
    simp only [n4, okBind] at hok
    rw [tok_ws_fail hws, errBind] at hok
    exact Except.noConfusion hok
  · -- name field 5 is all whitespace
    cases n1 : pyText (sliceAt s 132 16) >>= firstToken with
    | error e => rw [n1, errBind] at hok; exact Except.noConfusion hok
    | ok w1 =>
    simp only [n1, okBind] at hok
    cases n2 : pyText (sliceAt s 148 16) >>= firstToken with
    | error e => rw [n2, errBind] at hok; exact Except.noConfusion hok
    | ok w2 =>
    simp only [n2, okBind] at hok
    cases n3 : pyText (sliceAt s 164 16) >>= firstToken with
    | error e => rw [n3, errBind] at hok; exact Except.noConfusion hok
    | ok w3 =>
    simp only [n3, okBind] at hok
    cases n4 : pyText (sliceAt s 180 16) >>= firstToken with
    | error e => rw [n4, errBind] at hok; exact Except.noConfusion hok
    | ok w4 =>
    simp only [n4, okBind] at hok
    cases n5 : pyText (sliceAt s 196 16) >>= firstToken with
    | error e => rw [n5, errBind] at hok; exact Except.noConfusion hok
    | ok w5 =>
    simp only [n5, okBind] at hok
    rw [tok_ws_fail hws, errBind] at hok
    exact Except.noConfusion hok
  · -- name field 6 is all whitespace
    cases n1 : pyText (sliceAt s 132 16) >>= firstToken with
    | error e => rw [n1, errBind] at hok; exact Except.noConfusion hok
    | ok w1 =>
    simp only [n1, okBind] at hok
    cases n2 : pyText (sliceAt s 148 16) >>= firstToken with
    | error e => rw [n2, errBind] at hok; exact Except.noConfusion hok
    | ok w2 =>
    simp only [n2, okBind] at hok
    cases n3 : pyText (sliceAt s 164 16) >>= firstToken with
    | error e => rw [n3, errBind] at hok; exact Except.noConfusion hok
    | ok w3 =>
    simp only [n3, okBind] at hok
    cases n4 : pyText (sliceAt s 180 16) >>= firstToken with
    | error e => rw [n4, errBind] at hok; exact Except.noConfusion hok
    | ok w4 =>
    simp only [n4, okBind] at hok
    cases n5 : pyText (sliceAt s 196 16) >>= firstToken with
    | error e => rw [n5, errBind] at hok; exact Except.noConfusion hok
    | ok w5 =>
    simp only [n5, okBind] at hok
    cases n6 : pyText (sliceAt s 212 16) >>= firstToken with
    | error e => rw [n6, errBind] at hok; exact Except.noConfusion hok
    | ok w6 =>
    simp only [n6, okBind] at hok
    rw [tok_ws_fail hws, errBind] at hok
    exact Except.noConfusion hok
  · -- name field 7 is all whitespace
    cases n1 : pyText (sliceAt s 132 16) >>= firstToken with
    | error e => rw [n1, errBind] at hok; exact Except.noConfusion hok
    | ok w1 =>
    simp only [n1, okBind] at hok
    cases n2 : pyText (sliceAt s 148 16) >>= firstToken with
    | error e => rw [n2, errBind] at hok; exact Except.noConfusion hok
    | ok w2 =>
    simp only [n2, okBind] at hok
    cases n3 : pyText (sliceAt s 164 16) >>= firstToken with
    | error e => rw [n3, errBind] at hok; exact Except.noConfusion hok
    | ok w3 =>
    simp only [n3, okBind] at hok
    cases n4 : pyText (sliceAt s 180 16) >>= firstToken with
    | error e => rw [n4, errBind] at hok; exact Except.noConfusion hok
    | ok w4 =>
    simp only [n4, okBind] at hok
    cases n5 : pyText (sliceAt s 196 16) >>= firstToken with
    | error e => rw [n5, errBind] at hok; exact Except.noConfusion hok
    | ok w5 =>
    simp only [n5, okBind] at hok
    cases n6 : pyText (sliceAt s 212 16) >>= firstToken with
    | error e => rw [n6, errBind] at hok; exact Except.noConfusion hok
    | ok w6 =>
    simp only [n6, okBind] at hok
    cases n7 : pyText (sliceAt s 228 16) >>= firstToken with
    | error e => rw [n7, errBind] at hok; exact Except.noConfusion hok
    | ok w7 =>
    simp only [n7, okBind] at hok
    rw [tok_ws_fail hws, errBind] at hok
    exact Except.noConfusion hok
  · -- name field 8 is all whitespace
    cases n1 : pyText (sliceAt s 132 16) >>= firstToken with
    | error e => rw [n1, errBind] at hok; exact Except.noConfusion hok
    | ok w1 =>
    simp only [n1, okBind] at hok
    cases n2 : pyText (sliceAt s 148 16) >>= firstToken with
    | error e => rw [n2, errBind] at hok; exact Except.noConfusion hok
    | ok w2 =>
    simp only [n2, okBind] at hok
    cases n3 : pyText (sliceAt s 164 16) >>= firstToken with
    | error e => rw [n3, errBind] at hok; exact Except.noConfusion hok
    | ok w3 =>
    simp only [n3, okBind] at hok
    cases n4 : pyText (sliceAt s 180 16) >>= firstToken with
    | error e => rw [n4, errBind] at hok; exact Except.noConfusion hok
    | ok w4 =>
    simp only [n4, okBind] at hok
    cases n5 : pyText (sliceAt s 196 16) >>= firstToken with
    | error e => rw [n5, errBind] at hok; exact Except.noConfusion hok
    | ok w5 =>
    simp only [n5, okBind] at hok
    cases n6 : pyText (sliceAt s 212 16) >>= firstToken with
    | error e => rw [n6, errBind] at hok; exact Except.noConfusion hok
    | ok w6 =>
    simp only [n6, okBind] at hok
    cases n7 : pyText (sliceAt s 228 16) >>= firstToken with
    | error e => rw [n7, errBind] at hok; exact Except.noConfusion hok
    | ok w7 =>
    simp only [n7, okBind] at hok
    cases n8 : pyText (sliceAt s 244 16) >>= firstToken with
    | error e => rw [n8, errBind] at hok; exact Except.noConfusion hok
    | ok w8 =>
    simp only [n8, okBind] at hok
    rw [tok_ws_fail hws, errBind] at hok
    exact Except.noConfusion hok

theorem exMap_err {α β : Type} (f : α → β) (e : DecodeError) :
    Except.map f (.error e : Except DecodeError α) = .error e := rfl

theorem exMap_ok {α β : Type} (f : α → β) (a : α) :
    Except.map f (.ok a : Except DecodeError α) = .ok (f a) := rfl

theorem sliceAt_zero (s : Bytes) (n : Nat) : sliceAt s 0 n = s.take n := by
  unfold sliceAt
  rw [List.drop_zero]

theorem parseARest_congr_drop {s₁ s₂ : Bytes} (h : s₁.drop 12 = s₂.drop 12)
    (c : Bytes) : parseARest s₁ c = parseARest s₂ c := by
  have e : ∀ off n : Nat, 12 ≤ off → sliceAt s₁ off n = sliceAt s₂ off n :=
    fun off n hm => sliceAt_congr_of_drop_eq h hm
  unfold parseARest
  rw [e 12 2 (by omega), e 14 2 (by omega), e 16 2 (by omega), e 18 2 (by omega),
      e 20 30 (by omega), e 50 30 (by omega), e 80 2 (by omega), e 82 2 (by omega),
      e 84 2 (by omega), e 86 2 (by omega), e 88 2 (by omega), e 90 4 (by omega),
      e 98 2 (by omega)]

/-! The claims. -/

/-- C1: the claim asserts that a signature mismatch aborts decoding with
`BadSignature`.  The code performs no validation at all, so the claim is
false; this theorem proves the amended statement: the signature bytes are
never compared against anything — decoding depends on them only through
their UTF-8 decodability (a byte `≥ 0x80` raises `UnicodeDecodeError`).
Any two inputs that agree from byte 12 on and whose signature fields are
equally decodable behave identically: same success or failure, and on
success all fields equal except the verbatim-stored signature.  Whatever
magic string the format expects, a mismatching (decodable) signature
decodes exactly like a matching one. -/
theorem c1_signature_never_validated (s₁ s₂ : Bytes)
    (hpost : s₁.drop 12 = s₂.drop 12)
    (hascii : (s₁.take 12).all (· < 128) = (s₂.take 12).all (· < 128)) :
    ((decodeFile s₁).isOk = (decodeFile s₂).isOk) ∧
    ∀ r r', decodeFile s₁ = .ok r → decodeFile s₂ = .ok r' →
      r.signature = s₁.take 12 ∧ r'.signature = s₂.take 12 ∧
      { r with signature := [] } = { r' with signature := [] } := by
  by_cases ha₂ : (s₂.take 12).all (· < 128) = true
  case neg =>
    have ha₁ : ¬ (s₁.take 12).all (· < 128) = true := by rw [hascii]; exact ha₂
    have e₁ : decodeFile s₁ = .error .unicodeDecodeError := by
      unfold decodeFile parseA pyText
      rw [sliceAt_zero, if_neg ha₁, errBind, errBind]
    have e₂ : decodeFile s₂ = .error .unicodeDecodeError := by
      unfold decodeFile parseA pyText
      rw [sliceAt_zero, if_neg ha₂, errBind, errBind]
    rw [e₁, e₂]
    exact ⟨rfl, fun r r' h1 h2 => Except.noConfusion h1⟩
  have ha₁ : (s₁.take 12).all (· < 128) = true := by rw [hascii]; exact ha₂
  have h108 : s₁.drop 108 = s₂.drop 108 := drop_congr_of_drop_eq hpost (by omega)
  have hsl : ∀ off n : Nat, 12 ≤ off → sliceAt s₁ off n = sliceAt s₂ off n :=
    fun off n hm => sliceAt_congr_of_drop_eq hpost hm
  unfold decodeFile parseA
  rw [sliceAt_zero, sliceAt_zero]
  unfold pyText
  rw [if_pos ha₁, if_pos ha₂, okBind, okBind,
      parseARest_sig s₁ (s₁.take 12), parseARest_sig s₂ (s₂.take 12),
      parseARest_congr_drop hpost []]
  cases hR : parseARest s₂ [] with
  | error e =>
    refine ⟨by rw [exMap_err, exMap_err, errBind, errBind], ?_⟩
    intro r r' h1 h2
    rw [exMap_err, errBind] at h1
    exact Except.noConfusion h1
  | ok a0 =>
    rw [exMap_ok, exMap_ok, okBind, okBind, hsl 100 4 (by omega), hsl 104 4 (by omega)]
    cases hz : unpackI32 (sliceAt s₂ 100 4) with
    | error e =>
      refine ⟨by rw [errBind, errBind], ?_⟩
      intro r r' h1 h2
      rw [errBind] at h1
      exact Except.noConfusion h1
    | ok zm =>
      rw [okBind, okBind]
      cases hZ : unpackI32 (sliceAt s₂ 104 4) with
      | error e =>
        refine ⟨by rw [errBind, errBind], ?_⟩
        intro r r' h1 h2
        rw [errBind] at h1
        exact Except.noConfusion h1
      | ok zM =>
        rw [okBind, okBind,
            decodeTail_congr h108 { a0 with signature := s₁.take 12 } zm zM,
            decodeTail_sig a0 (s₁.take 12) zm zM s₂,
            decodeTail_sig a0 (s₂.take 12) zm zM s₂]
        cases hd : decodeTail a0 zm zM s₂ with
        | error e =>
          refine ⟨by rw [exMap_err, exMap_err], ?_⟩
          intro r r' h1 h2
          rw [exMap_err] at h1
          exact Except.noConfusion h1
        | ok r0 =>
          rw [exMap_ok, exMap_ok]
          refine ⟨rfl, ?_⟩
          intro r r' h1 h2
          cases h1
          cases h2
          exact ⟨rfl, rfl, rfl⟩

/-- C1 witness: the amended theorem applied to two complete concrete files
whose signatures are `AAAAAAAAAAAA` and `BBBBBBBBBBBB`. -/
theorem c1_signature_never_validated_witness :
    ((decodeFile goodA).isOk = (decodeFile goodB).isOk) ∧
    ∀ r r', decodeFile goodA = .ok r → decodeFile goodB = .ok r' →
      r.signature = goodA.take 12 ∧ r'.signature = goodB.take 12 ∧
      { r with signature := [] } = { r' with signature := [] } :=
  c1_signature_never_validated goodA goodB (by decide) (by decide)

/-- C1 counterexample: both of these files decode to a complete record,
with two different signatures; since at most one of the two signatures can
equal the format's magic string, some input whose first 12 bytes differ
from the magic yields a record instead of failing with `BadSignature`. -/
theorem c1_wrong_magic_still_decodes :
    (decodeFile goodA).isOk = true ∧ (decodeFile goodB).isOk = true ∧
    goodA.take 12 ≠ goodB.take 12 := by
  refine ⟨by decide, by decide, by decide⟩

/-- C10: whenever one of the nine 16-byte axis-name/unit fields (the `k`-th
one sits at bytes `[132 + 16k, 148 + 16k)`) holds only whitespace bytes,
decoding raises an exception (`.split()[0]` on an empty token list, or an
earlier error) and never produces a record. -/
theorem c10_blank_text_field_aborts (s : Bytes) (k : Nat) (hk : k < 9)
    (hws : (sliceAt s (132 + 16 * k) 16).all isWS = true) :
    (decodeFile s).isOk = false := by
  unfold decodeFile
  cases hA : parseA s with
  | error e => rw [errBind]; rfl
  | ok a =>
    rw [okBind]
    cases hz : unpackI32 (sliceAt s 100 4) with
    | error e => rw [errBind]; rfl
    | ok zm =>
      rw [okBind]
      cases hZ : unpackI32 (sliceAt s 104 4) with
      | error e => rw [errBind]; rfl
      | ok zM =>
        rw [okBind]
        unfold decodeTail
        cases hb : parseB s with
        | error e => rw [errBind]; rfl
        | ok b => exact absurd hb (parseB_ws_fail hk hws b)

/-- C10 witness: a file whose `xName` field (`k = 0`) is sixteen spaces
fails to decode. -/
theorem c10_blank_text_field_aborts_witness : (decodeFile wsName).isOk = false :=
  c10_blank_text_field_aborts wsName 0 (by norm_num) (by decide)

/-- C9: two inputs that agree except on bytes `[100, 108)` — the eight
bytes holding `zMin` and `zMax` — succeed or fail together, and on success
their calibrated grids and axes coincide: the z-range fields are stored but
never used in sample calibration or axis construction. -/
theorem c9_zrange_never_used (pre mid mid' post : Bytes)
    (hpre : pre.length = 100) (hmid : mid.length = 8) (hmid' : mid'.length = 8) :
    ((decodeFile (pre ++ mid ++ post)).isOk =
      (decodeFile (pre ++ mid' ++ post)).isOk) ∧
    ∀ r r', decodeFile (pre ++ mid ++ post) = .ok r →
      decodeFile (pre ++ mid' ++ post) = .ok r' →
      r.pointsAligned = r'.pointsAligned ∧ r.xAxis = r'.xAxis ∧
      r.yAxis = r'.yAxis := by
  have htake : ∀ m : Bytes, m.length = 8 → (pre ++ m ++ post).take 100 = pre := by
    intro m hm
    rw [List.take_append_of_le_length (by rw [List.length_append]; omega),
        List.take_append_of_le_length (by omega), ← hpre, List.take_length]
  have hdrop : ∀ m : Bytes, m.length = 8 → (pre ++ m ++ post).drop 108 = post := by
    intro m hm
    rw [List.drop_append_eq_append_drop,
        List.drop_eq_nil_of_le (by rw [List.length_append]; omega),
        List.nil_append, List.length_append, hpre, hm]
    simp
  have hlen : ∀ (m : Bytes), m.length = 8 → ∀ off : Nat, 100 ≤ off → off + 4 ≤ 108 →
      (sliceAt (pre ++ m ++ post) off 4).length = 4 := by
    intro m hm off h1 h2
    unfold sliceAt
    rw [List.length_take, List.length_drop, List.length_append,
        List.length_append, hpre, hm]
    omega
  have hok : ∀ (m : Bytes), m.length = 8 → ∀ off : Nat, 100 ≤ off → off + 4 ≤ 108 →
      ∃ v, unpackI32 (sliceAt (pre ++ m ++ post) off 4) = .ok v := by
    intro m hm off h1 h2
    unfold unpackI32
    rw [if_pos (hlen m hm off h1 h2)]
    exact ⟨_, rfl⟩
  have hA : parseA (pre ++ mid ++ post) = parseA (pre ++ mid' ++ post) := by
    have ht : (pre ++ mid ++ post).take 100 = (pre ++ mid' ++ post).take 100 := by
      rw [htake mid hmid, htake mid' hmid']
    unfold parseA
    rw [sliceAt_congr_of_take_eq ht (by omega),
        show parseARest (pre ++ mid ++ post) = parseARest (pre ++ mid' ++ post)
          from funext (parseARest_congr ht)]
  have h108 : (pre ++ mid ++ post).drop 108 = (pre ++ mid' ++ post).drop 108 := by
    rw [hdrop mid hmid, hdrop mid' hmid']
  obtain ⟨za, hza⟩ := hok mid hmid 100 (by omega) (by omega)
  obtain ⟨zb, hzb⟩ := hok mid hmid 104 (by omega) (by omega)
  obtain ⟨za', hza'⟩ := hok mid' hmid' 100 (by omega) (by omega)
  obtain ⟨zb', hzb'⟩ := hok mid' hmid' 104 (by omega) (by omega)
  unfold decodeFile
  rw [hA]
  cases hAx : parseA (pre ++ mid' ++ post) with
  | error e =>
    refine ⟨by rw [errBind, errBind], ?_⟩
    intro r r' h1 h2
    rw [errBind] at h1
    exact Except.noConfusion h1
  | ok a =>
    simp only [okBind, hza, hza', hzb, hzb']
    rw [decodeTail_congr h108 a za zb]
    exact decodeTail_zm a za zb za' zb' (pre ++ mid' ++ post)

/-- C9 witness: the theorem applied to the concrete scenario file, with the
z-range bytes replaced by `zMin = 7`, `zMax = 9` on one side. -/
theorem c9_zrange_never_used_witness :
    ((decodeFile (hdrPre sigA 16 ++ (i4 0 ++ i4 0) ++ postZ)).isOk =
      (decodeFile (hdrPre sigA 16 ++ (i4 7 ++ i4 9) ++ postZ)).isOk) ∧
    ∀ r r', decodeFile (hdrPre sigA 16 ++ (i4 0 ++ i4 0) ++ postZ) = .ok r →
      decodeFile (hdrPre sigA 16 ++ (i4 7 ++ i4 9) ++ postZ) = .ok r' →
      r.pointsAligned = r'.pointsAligned ∧ r.xAxis = r'.xAxis ∧
      r.yAxis = r'.yAxis :=
  c9_zrange_never_used (hdrPre sigA 16) (i4 0 ++ i4 0) (i4 7 ++ i4 9) postZ
    (by decide) (by decide) (by decide)

/-- C2: the claim asserts a width code outside `{16, 32}` fails with
`UnsupportedSampleWidth`.  Amended: such a code makes the decode fail with
`AttributeError` (the code only prints a warning, leaves `points` unset,
and the scaling line then raises), still yielding no record; and codes 16
and 32 do select the 2-byte and 4-byte signed little-endian sample
decoders. -/
theorem c2_width_dispatch :
    (∀ s a zm zM b t, parseA s = .ok a →
      unpackI32 (sliceAt s 100 4) = .ok zm →
      unpackI32 (sliceAt s 104 4) = .ok zM →
      parseB s = .ok b →
      parseTrailer s b.commentSize b.privateSize = .ok t →
      a.sizeOfPoints ≠ 16 → a.sizeOfPoints ≠ 32 →
      decodeFile s = .error .attributeError) ∧
    (∀ (c : Int) (d : Bytes),
      readRawPoints 16 c d = .ok (npFromfile 2 c d) ∧
      readRawPoints 32 c d = .ok (npFromfile 4 c d)) := by
  constructor
  · intro s a zm zM b t hA hz hZ hb ht h16 h32
    unfold decodeFile decodeTail readRawPoints
    simp only [hA, okBind, hz, hZ, hb, ht, if_neg h16, if_neg h32, errBind]
  · intro c d
    exact ⟨rfl, rfl⟩

/-- C2 witness: the dispatch theorem applied to the concrete width-8 file
and to concrete sample bytes. -/
theorem c2_width_dispatch_witness :
    decodeFile width8 = .error .attributeError ∧
    readRawPoints 16 4 data4 = .ok (npFromfile 2 4 data4) ∧
    readRawPoints 32 2 data4 = .ok (npFromfile 4 2 data4) :=
  ⟨c2_width_dispatch.1 width8 (getOkD (parseA width8))
      (getOkD (unpackI32 (sliceAt width8 100 4)))
      (getOkD (unpackI32 (sliceAt width8 104 4)))
      (getOkD (parseB width8))
      (getOkD (parseTrailer width8 (getOkD (parseB width8)).commentSize
        (getOkD (parseB width8)).privateSize))
      (by with_unfolding_all decide) (by with_unfolding_all decide)
      (by with_unfolding_all decide) (by with_unfolding_all decide)
      (by with_unfolding_all decide) (by with_unfolding_all decide)
      (by with_unfolding_all decide),
   (c2_width_dispatch.2 4 data4).1, (c2_width_dispatch.2 2 data4).2⟩

/-- C2 counterexample: the width-8 file fails with `AttributeError`, which
is not the `UnsupportedSampleWidth` failure the claim asserts. -/
theorem c2_width8_error_is_attribute_error :
    decodeFile width8 = .error .attributeError ∧
    DecodeError.attributeError ≠ DecodeError.unsupportedSampleWidth := by
  exact ⟨by with_unfolding_all decide, by decide⟩

/-- C3: the claim says a zero `zUnitRatio` aborts with
`InvalidCalibration`; instead the code decodes this file (whose header
stores `zUnitRatio = 0.0`) successfully and its calibrated grid is filled
with `inf` (numpy division by zero), exactly what the claim says must not
happen. -/
theorem c3_zero_ratio_gives_inf_grid :
    (decodeFile zeroRat).isOk = true ∧
    (decSur zeroRat).zUnitRatio = PyF.finite 0 ∧
    (decSur zeroRat).pointsAligned = [[PyF.inf, PyF.inf], [PyF.inf, PyF.inf]] ∧
    decodeFile zeroRat ≠ .error .invalidCalibration := by
  exact ⟨by with_unfolding_all decide, by with_unfolding_all decide,
    by with_unfolding_all decide, by with_unfolding_all decide⟩

/-- C7: the claim says a source shorter than the fixed header yields
`UnexpectedEnd` and no record.  This 486-byte file (26 bytes short of the
512-byte fixed header) decodes to a complete record, with the truncated
temperature text fields silently read as empty instead of 13 bytes each. -/
theorem c7_truncated_header_still_decodes :
    trunc486.length = 486 ∧
    (decodeFile trunc486).isOk = true ∧
    (decSur trunc486).tempStepUnit = [] ∧
    (decSur trunc486).tempAxisName = [] ∧
    decodeFile trunc486 ≠ .error .unexpectedEnd := by
  exact ⟨by decide, by with_unfolding_all decide, by with_unfolding_all decide,
    by with_unfolding_all decide, by with_unfolding_all decide⟩

theorem pyText_ok {x y : Bytes} (h : pyText x = .ok y) : y = x := by
  unfold pyText at h
  by_cases hall : x.all (· < 128) = true
  · rw [if_pos hall] at h
    exact ((Except.ok.injEq _ _).mp h).symm
  · rw [if_neg hall] at h
    exact Except.noConfusion h

theorem sliceAt_length (s : Bytes) (off n : Nat) :
    (sliceAt s off n).length = min n (s.length - off) := by
  unfold sliceAt
  rw [List.length_take, List.length_drop]

/-- C4: the claim says `totalPoints ≠ xPoints·yPoints` always aborts with
`ShapeMismatch`, so every decoded record satisfies the product invariant.
Amended: when all `totalPoints` declared samples are actually present
(item size 2 for width code 16, 4 for width code 32, the counts
non-negative), a product mismatch does abort the decode — with numpy's
reshape `ValueError` — but when the byte source runs short, `np.fromfile`
silently returns fewer samples, so a record whose `totalPoints` differs
from `xPoints·yPoints` can still be produced; what
every decoded record does satisfy is that the number of samples actually
read equals `yPoints·xPoints`. -/
theorem c4_shape_check :
    (∀ s a zm zM b t (w : Nat), parseA s = .ok a →
      unpackI32 (sliceAt s 100 4) = .ok zm →
      unpackI32 (sliceAt s 104 4) = .ok zM →
      parseB s = .ok b →
      parseTrailer s b.commentSize b.privateSize = .ok t →
      (a.sizeOfPoints = 16 ∧ w = 2) ∨ (a.sizeOfPoints = 32 ∧ w = 4) →
      0 ≤ b.totalPoints → 0 ≤ b.xPoints → 0 ≤ b.yPoints →
      b.totalPoints.toNat * w ≤ (s.drop (512 + b.commentSize + b.privateSize)).length →
      b.totalPoints ≠ b.xPoints * b.yPoints →
      decodeFile s = .error .valueError) ∧
    (∀ s r, decodeFile s = .ok r → 0 ≤ r.xPoints → 0 ≤ r.yPoints →
      (r.points.length : Int) = r.yPoints * r.xPoints) := by
  constructor
  · intro s a zm zM b t w hA hz hZ hb ht hwid htp hx hy hdata hne
    have hraw : readRawPoints a.sizeOfPoints b.totalPoints
        (s.drop (512 + b.commentSize + b.privateSize)) =
        .ok (npFromfile w b.totalPoints (s.drop (512 + b.commentSize + b.privateSize))) := by
      unfold readRawPoints
      rcases hwid with ⟨h16, hw⟩ | ⟨h32, hw⟩
      · rw [h16, hw]
        rfl
      · rw [h32, hw]
        rfl
    have hw0 : 0 < w := by
      rcases hwid with ⟨h16, hw⟩ | ⟨h32, hw⟩ <;> omega
    have hlen : (npFromfile w b.totalPoints
        (s.drop (512 + b.commentSize + b.privateSize))).length = b.totalPoints.toNat :=
      npFromfile_length_of_enough htp hw0 hdata
    have hrs : npReshape b.yPoints b.xPoints
        (calibrate (npFromfile w b.totalPoints
          (s.drop (512 + b.commentSize + b.privateSize))) b.zSpacing b.zUnitRatio) =
        .error .valueError := by
      apply npReshape_mismatch hy hx
      rw [calibrate_length, hlen]
      intro heq
      apply hne
      have e1 : ((b.yPoints.toNat * b.xPoints.toNat : Nat) : Int) =
          ((b.totalPoints.toNat : Nat) : Int) := by rw [heq]
      rw [Nat.cast_mul, Int.toNat_of_nonneg hy, Int.toNat_of_nonneg hx,
          Int.toNat_of_nonneg htp] at e1
      rw [← e1]
      ring
    unfold decodeFile decodeTail
    simp only [hA, okBind, hz, hZ, hb, ht, hraw, hrs, errBind]
  · intro s r hdec hx hy
    obtain ⟨a, zm, zM, b, t, raw, grid, hA, hz, hZ, hb, ht, hw, hg, rfl⟩ :=
      decodeFile_ok hdec
    obtain ⟨hsz, hgrid⟩ := npReshape_ok_nonneg hy hx hg
    show ((calibrate raw b.zSpacing b.zUnitRatio).length : Int) = b.yPoints * b.xPoints
    rw [← hsz, Nat.cast_mul, Int.toNat_of_nonneg hy, Int.toNat_of_nonneg hx]
    rfl

/-- C4 witness: the error side applied to two complete files declaring a
3×2 grid but `totalPoints = 5`, one per supported width code, and the
invariant side applied to the scenario file. -/
theorem c4_shape_check_witness :
    decodeFile badShape = .error .valueError ∧
    decodeFile badShape32 = .error .valueError ∧
    ((decSur goodA).points.length : Int) = (decSur goodA).yPoints * (decSur goodA).xPoints :=
  ⟨c4_shape_check.1 badShape (getOkD (parseA badShape))
      (getOkD (unpackI32 (sliceAt badShape 100 4)))
      (getOkD (unpackI32 (sliceAt badShape 104 4)))
      (getOkD (parseB badShape))
      (getOkD (parseTrailer badShape (getOkD (parseB badShape)).commentSize
        (getOkD (parseB badShape)).privateSize)) 2
      (by with_unfolding_all decide) (by with_unfolding_all decide)
      (by with_unfolding_all decide) (by with_unfolding_all decide)
      (by with_unfolding_all decide)
      (Or.inl ⟨by with_unfolding_all decide, rfl⟩)
      (by with_unfolding_all decide) (by with_unfolding_all decide)
      (by with_unfolding_all decide) (by with_unfolding_all decide)
      (by with_unfolding_all decide),
   c4_shape_check.1 badShape32 (getOkD (parseA badShape32))
      (getOkD (unpackI32 (sliceAt badShape32 100 4)))
      (getOkD (unpackI32 (sliceAt badShape32 104 4)))
      (getOkD (parseB badShape32))
      (getOkD (parseTrailer badShape32 (getOkD (parseB badShape32)).commentSize
        (getOkD (parseB badShape32)).privateSize)) 4
      (by with_unfolding_all decide) (by with_unfolding_all decide)
      (by with_unfolding_all decide) (by with_unfolding_all decide)
      (by with_unfolding_all decide)
      (Or.inr ⟨by with_unfolding_all decide, rfl⟩)
      (by with_unfolding_all decide) (by with_unfolding_all decide)
      (by with_unfolding_all decide) (by with_unfolding_all decide)
      (by with_unfolding_all decide),
   c4_shape_check.2 goodA (decSur goodA) (by with_unfolding_all decide)
      (by with_unfolding_all decide) (by with_unfolding_all decide)⟩

/-- C4 counterexample: this file (four samples on disk, `totalPoints = 5`
declared) decodes to a record violating `totalPoints = xPoints·yPoints`,
so the claim's consequence fails on the code. -/
theorem c4_short_data_record :
    (decodeFile shortData).isOk = true ∧
    (decSur shortData).totalPoints = 5 ∧
    (decSur shortData).xPoints = 2 ∧
    (decSur shortData).yPoints = 2 ∧
    (decSur shortData).totalPoints ≠
      (decSur shortData).xPoints * (decSur shortData).yPoints := by
  exact ⟨by with_unfolding_all decide, by with_unfolding_all decide,
    by with_unfolding_all decide, by with_unfolding_all decide,
    by with_unfolding_all decide⟩

/-- C5: the claim says every record's grid has shape `(yPoints, xPoints)`
with cell `(j, i)` equal to `rawSample[j·xPoints + i]·zSpacing/zUnitRatio`.
Amended: that holds whenever `xPoints` and `yPoints` are non-negative (a
negative dimension is instead inferred by numpy's reshape, see the
counterexample); the cell formula is stated as grid cell = scaled
sequence entry, with the scaled sequence given by `calibrate`, which maps
`raw[n]` to `raw[n]·zSpacing/zUnitRatio`. -/
theorem c5_grid_layout :
    (∀ s r, decodeFile s = .ok r → 0 ≤ r.xPoints → 0 ≤ r.yPoints →
      r.pointsAligned.length = r.yPoints.toNat ∧
      (∀ row ∈ r.pointsAligned, row.length = r.xPoints.toNat) ∧
      (∀ j i : Nat, j < r.yPoints.toNat → i < r.xPoints.toNat →
        (r.pointsAligned.getD j []).getD i .nan =
          r.points.getD (j * r.xPoints.toNat + i) .nan)) ∧
    (∀ (raw : List Int) (zs zu : PyF) (n : Nat), n < raw.length →
      (calibrate raw zs zu).getD n .nan =
        PyF.div (PyF.mul (.finite ((raw.getD n 0 : Int) : ℚ)) zs) zu) := by
  constructor
  · intro s r hdec hx hy
    obtain ⟨a, zm, zM, b, t, raw, grid, hA, hz, hZ, hb, ht, hw, hg, rfl⟩ :=
      decodeFile_ok hdec
    obtain ⟨hsz, hgrid⟩ := npReshape_ok_nonneg hy hx hg
    refine ⟨?_, ?_, ?_⟩
    · show grid.length = b.yPoints.toNat
      rw [hgrid, mkGrid_length]
      rfl
    · intro row hrow
      show row.length = b.xPoints.toNat
      rw [hgrid] at hrow
      rw [mkGrid_row_length hrow]
      rfl
    · intro j i hj hi
      show (grid.getD j []).getD i .nan =
        (calibrate raw b.zSpacing b.zUnitRatio).getD
          (j * (assemble a zm zM b t raw grid).xPoints.toNat + i) .nan
      rw [hgrid, mkGrid_getD _ hj hi]
      rfl
  · intro raw zs zu n hn
    exact calibrate_getD raw zs zu hn

/-- C5 witness: the layout theorem applied to the spec's concrete scenario
file, plus the scenario's expected calibrated grid `[[5, 10], [15, 20]]`
checked on that file. -/
theorem c5_grid_layout_witness :
    ((decSur goodA).pointsAligned.length = (decSur goodA).yPoints.toNat ∧
      (∀ row ∈ (decSur goodA).pointsAligned, row.length = (decSur goodA).xPoints.toNat) ∧
      (∀ j i : Nat, j < (decSur goodA).yPoints.toNat → i < (decSur goodA).xPoints.toNat →
        ((decSur goodA).pointsAligned.getD j []).getD i .nan =
          (decSur goodA).points.getD (j * (decSur goodA).xPoints.toNat + i) .nan)) ∧
    (calibrate [10, 20, 30, 40] (.finite 1) (.finite 2)).getD 3 .nan =
      PyF.div (PyF.mul (.finite ((([10, 20, 30, 40].getD 3 0 : Int)) : ℚ)) (.finite 1)) (.finite 2) ∧
    (decSur goodA).pointsAligned =
      [[PyF.finite 5, PyF.finite 10], [PyF.finite 15, PyF.finite 20]] :=
  ⟨c5_grid_layout.1 goodA (decSur goodA) (by with_unfolding_all decide)
      (by with_unfolding_all decide) (by with_unfolding_all decide),
   c5_grid_layout.2 [10, 20, 30, 40] (.finite 1) (.finite 2) 3 (by decide),
   by with_unfolding_all decide⟩

/-- C5 counterexample: a record decoded with `yPoints = -1` (numpy infers
the row count) has a 2-row grid, not a grid of shape `(yPoints, xPoints)`,
so the claim as stated fails on the code. -/
theorem c5_negative_y_grid :
    (decodeFile yNeg).isOk = true ∧
    (decSur yNeg).yPoints = -1 ∧
    (decSur yNeg).pointsAligned.length = 2 ∧
    ((decSur yNeg).pointsAligned.length : Int) ≠ (decSur yNeg).yPoints := by
  exact ⟨by with_unfolding_all decide, by with_unfolding_all decide,
    by with_unfolding_all decide, by with_unfolding_all decide⟩

/-- C6: the claim says `xAxis` has length `xPoints`, starts at `0`, and
has `xAxis[k] = k·xSpacing/xUnitRatio` (likewise for `yAxis`).  Amended:
the lengths are `xPoints.toNat`/`yPoints.toNat` (equal to the declared
counts only when those are non-negative; `range` of a negative count is
empty), the value formula holds at every index, and `xAxis[0] = 0` holds
when `xSpacing` is finite and `xUnitRatio` is finite and non-zero (with a
zero or non-finite ratio the head is `inf`/`nan`, not `0`). -/
theorem c6_axis_construction :
    ∀ s r, decodeFile s = .ok r →
      (r.xAxis.length = r.xPoints.toNat ∧ r.yAxis.length = r.yPoints.toNat) ∧
      (∀ k : Nat, k < r.xPoints.toNat →
        r.xAxis.getD k .nan =
          PyF.div (PyF.mul (.finite (k : ℚ)) r.xSpacing) r.xUnitRatio) ∧
      (∀ k : Nat, k < r.yPoints.toNat →
        r.yAxis.getD k .nan =
          PyF.div (PyF.mul (.finite (k : ℚ)) r.ySpacing) r.yUnitRatio) ∧
      (∀ q w : ℚ, 0 < r.xPoints → r.xSpacing = .finite q →
        r.xUnitRatio = .finite w → w ≠ 0 → r.xAxis.getD 0 .nan = .finite 0) := by
  intro s r hdec
  obtain ⟨a, zm, zM, b, t, raw, grid, hA, hz, hZ, hb, ht, hw, hg, rfl⟩ :=
    decodeFile_ok hdec
  refine ⟨⟨mkAxis_length _ _ _, mkAxis_length _ _ _⟩, ?_, ?_, ?_⟩
  · intro k hk
    exact mkAxis_getD _ _ _ hk
  · intro k hk
    exact mkAxis_getD _ _ _ hk
  · intro q w hxpos hsp hur hw0
    have hpos : (0 : Nat) < b.xPoints.toNat := by
      have : 0 < b.xPoints := hxpos
      omega
    have h0 : (mkAxis b.xPoints b.xSpacing b.xUnitRatio).getD 0 .nan =
        PyF.div (PyF.mul (.finite ((0 : Nat) : ℚ)) b.xSpacing) b.xUnitRatio :=
      mkAxis_getD _ _ _ hpos
    show (mkAxis b.xPoints b.xSpacing b.xUnitRatio).getD 0 .nan = .finite 0
    rw [h0, show b.xSpacing = PyF.finite q from hsp,
        show b.xUnitRatio = PyF.finite w from hur]
    simp [PyF.mul, PyF.div, hw0]

/-- C6 witness: the axis theorem applied to the scenario file, plus its
concrete axes `[0, 1]`. -/
theorem c6_axis_construction_witness :
    (((decSur goodA).xAxis.length = (decSur goodA).xPoints.toNat ∧
      (decSur goodA).yAxis.length = (decSur goodA).yPoints.toNat) ∧
      (∀ k : Nat, k < (decSur goodA).xPoints.toNat →
        (decSur goodA).xAxis.getD k .nan =
          PyF.div (PyF.mul (.finite (k : ℚ)) (decSur goodA).xSpacing)
            (decSur goodA).xUnitRatio) ∧
      (∀ k : Nat, k < (decSur goodA).yPoints.toNat →
        (decSur goodA).yAxis.getD k .nan =
          PyF.div (PyF.mul (.finite (k : ℚ)) (decSur goodA).ySpacing)
            (decSur goodA).yUnitRatio) ∧
      (∀ q w : ℚ, 0 < (decSur goodA).xPoints → (decSur goodA).xSpacing = .finite q →
        (decSur goodA).xUnitRatio = .finite w → w ≠ 0 →
        (decSur goodA).xAxis.getD 0 .nan = .finite 0)) ∧
    (decSur goodA).xAxis = [PyF.finite 0, PyF.finite 1] ∧
    (decSur goodA).yAxis = [PyF.finite 0, PyF.finite 1] :=
  ⟨c6_axis_construction goodA (decSur goodA) (by with_unfolding_all decide),
   by with_unfolding_all decide, by with_unfolding_all decide⟩

/-- C6 counterexample: a record decoded with `xPoints = -1` (the reshape
column count is inferred) has an empty `xAxis`, so neither
`xAxis.length = xPoints` nor `xAxis[0] = 0` can hold as claimed. -/
theorem c6_negative_x_axis :
    (decodeFile xNeg).isOk = true ∧
    (decSur xNeg).xPoints = -1 ∧
    (decSur xNeg).xAxis = [] := by
  exact ⟨by with_unfolding_all decide, by with_unfolding_all decide,
    by with_unfolding_all decide⟩

/-- C8: the claim says the private blob is present iff `privateSize ≠ 0`,
with exactly `privateSize` bytes, and the comment has exactly
`commentSize` bytes.  Amended: the presence-iff part holds, but the
lengths are `min(size, bytes remaining)` — exactly the declared sizes only
when the source has enough bytes; a short source silently yields shorter
comment/private text (the byte-by-byte reads return nothing at EOF). -/
theorem c8_trailer_sizes :
    ∀ s r, decodeFile s = .ok r →
      (r.privateBlob.isSome ↔ r.privateSize ≠ 0) ∧
      r.comment.length = min r.commentSize (s.length - 512) ∧
      (512 + r.commentSize ≤ s.length → r.comment.length = r.commentSize) ∧
      (∀ p, r.privateBlob = some p →
        p.length = min r.privateSize (s.length - (512 + r.commentSize)) ∧
        (512 + r.commentSize + r.privateSize ≤ s.length →
          p.length = r.privateSize)) := by
  intro s r hdec
  obtain ⟨a, zm, zM, b, t, raw, grid, hA, hz, hZ, hb, ht, hw, hg, rfl⟩ :=
    decodeFile_ok hdec
  unfold parseTrailer at ht
  cases hc : pyText (sliceAt s 512 b.commentSize) with
  | error e =>
    rw [hc, errBind] at ht
    exact Except.noConfusion ht
  | ok c =>
    have hcc : c = sliceAt s 512 b.commentSize := pyText_ok hc
    simp only [hc, okBind] at ht
    by_cases hp : b.privateSize ≠ 0
    · rw [if_pos hp] at ht
      cases hpp : pyText (sliceAt s (512 + b.commentSize) b.privateSize) with
      | error e =>
        rw [hpp, errBind] at ht
        exact Except.noConfusion ht
      | ok p0 =>
        have hpc : p0 = sliceAt s (512 + b.commentSize) b.privateSize :=
          pyText_ok hpp
        simp only [hpp, okBind] at ht
        have ht' : t = (c, some p0) := ((Except.ok.injEq _ _).mp ht).symm
        subst ht'
        refine ⟨by show (some p0).isSome ↔ b.privateSize ≠ 0; simp [hp], ?_, ?_, ?_⟩
        · show c.length = min b.commentSize (s.length - 512)
          rw [hcc, sliceAt_length]
        · intro hle
          show c.length = b.commentSize
          rw [hcc, sliceAt_length]
          have hle' : 512 + b.commentSize ≤ s.length := hle
          omega
        · intro p hpeq
          have hpe : p0 = p := by
            have := (Option.some.injEq _ _).mp
              (show some p0 = some p from hpeq)
            exact this
          subst hpe
          constructor
          · show p0.length = min b.privateSize (s.length - (512 + b.commentSize))
            rw [hpc, sliceAt_length]
          · intro hle
            show p0.length = b.privateSize
            rw [hpc, sliceAt_length]
            have hle' : 512 + b.commentSize + b.privateSize ≤ s.length := hle
            omega
    · rw [if_neg hp] at ht
      have hps : b.privateSize = 0 := by omega
      have ht' : t = (c, none) := ((Except.ok.injEq _ _).mp ht).symm
      subst ht'
      refine ⟨by show (none : Option Bytes).isSome ↔ b.privateSize ≠ 0; simp [hps], ?_, ?_, ?_⟩
      · show c.length = min b.commentSize (s.length - 512)
        rw [hcc, sliceAt_length]
      · intro hle
        show c.length = b.commentSize
        rw [hcc, sliceAt_length]
        have hle' : 512 + b.commentSize ≤ s.length := hle
        omega
      · intro p hpeq
        exact Option.noConfusion hpeq

/-- C8 witness: the trailer theorem applied to a concrete file with
`commentSize = 2` and `privateSize = 3`, both blocks fully present, plus
the concretely decoded comment and private blob. -/
theorem c8_trailer_sizes_witness :
    (((decSur privOk).privateBlob.isSome ↔ (decSur privOk).privateSize ≠ 0) ∧
      (decSur privOk).comment.length =
        min (decSur privOk).commentSize (privOk.length - 512) ∧
      (512 + (decSur privOk).commentSize ≤ privOk.length →
        (decSur privOk).comment.length = (decSur privOk).commentSize) ∧
      (∀ p, (decSur privOk).privateBlob = some p →
        p.length = min (decSur privOk).privateSize
          (privOk.length - (512 + (decSur privOk).commentSize)) ∧
        (512 + (decSur privOk).commentSize + (decSur privOk).privateSize ≤
            privOk.length → p.length = (decSur privOk).privateSize))) ∧
    (decSur privOk).comment = [67, 67] ∧
    (decSur privOk).privateBlob = some [80, 80, 80] :=
  ⟨c8_trailer_sizes privOk (decSur privOk) (by with_unfolding_all decide),
   by with_unfolding_all decide, by with_unfolding_all decide⟩

/-- C8 counterexample: a record decoded from a source that ends two bytes
into a declared five-byte comment has a two-byte comment, not the exact
`commentSize` bytes the claim requires. -/
theorem c8_short_comment_record :
    (decodeFile shortCmt).isOk = true ∧
    (decSur shortCmt).commentSize = 5 ∧
    (decSur shortCmt).comment.length = 2 := by
  exact ⟨by with_unfolding_all decide, by with_unfolding_all decide,
    by with_unfolding_all decide⟩

end ReadSur
